import Mathlib

/-!
Shallow embedding of the resolution-and-code-synthesis pipeline of
reagento/dataclass_factory (the `dataclass_factory_30` slice plus the
msgspec integration), used to check the natural-language specification
against the code.

Embedded source files:
- `dataclass_factory_30/provider/model/loader_provider.py`
  (`BuiltinInputExtractionMaker`, `ModelLoaderProvider`, `make_input_creation`)
- `dataclass_factory_30/high_level/utils.py` (`resolve_classmethod`)
- `src/adaptix/_internal/integrations/msgspec/native.py` (`NativeMsgspecProvider`)

Collaborators that the embedded files import but whose code is not part of
the analysed slice (the Mediator, the `basic_gen` helpers, the crown data
classes, the closure compiler) are modelled from the specification; each
such definition carries a doc comment starting with `Modelled from the
spec:`.
-/

namespace DCF

/-- A field of an `InputFigure`: a unique name and a requiredness flag
(`field.name`, `field.is_required` in the source). The declared type and
the default value play no role in the verified properties and are elided. -/
structure InputField where
  name : String
  is_required : Bool
deriving DecidableEq, Repr

/-- Modelled from the spec: the Shape's extra-data policy carrier
(`InputFigure.extra` in the source, which is `None`, `ExtraKwargs()` or
`ExtraTargets(...)`); `None` means the shape accepts no extra data. -/
inductive ExtraSpec
  | kwargs
  | targets (names : List String)
deriving DecidableEq, Repr

/-- The Shape (`InputFigure` in the source): an ordered list of fields plus
the extra-data policy (`figure.extra`; `none` = policy "none"). -/
structure InputFigure where
  fields : List InputField
  extra : Option ExtraSpec
deriving DecidableEq, Repr

/-- Modelled from the spec: the Crown tree — `Leaf(field_name)`,
`DictCrown(mapping from external key to child Crown, optional extra
target)`, `ListCrown(ordered children, optional extra target)`.
The crown data classes live in `crown_definitions.py`, outside the
analysed slice. The dict mapping is encoded as parallel lists: the i-th
external key maps to the i-th child crown. -/
inductive Crown
  | leaf (fieldName : String)
  | dict (keys : List String) (children : List Crown) (extraTarget : Option String)
  | list (entries : List Crown) (extraTarget : Option String)

/-- Modelled from the spec: the validated (Shape, Crown) pair
(`InputNameMapping` in the source); only the crown matters here. -/
structure InputNameMapping where
  crown : Crown

mutual

/-- Modelled from the spec: the names of all fields referenced by some
`Leaf` of the crown (traversal of one node; `leafNamesList` handles the
children). -/
def Crown.leafNames : Crown → List String
  | .leaf n => [n]
  | .dict _ cs _ => leafNamesList cs
  | .list es _ => leafNamesList es

/-- Leaf names of a list of sibling crowns, in order. -/
def leafNamesList : List Crown → List String
  | [] => []
  | c :: rest => c.leafNames ++ leafNamesList rest

end

/-- The field name a crown node itself carries when it is a `Leaf`,
else nothing. -/
def Crown.directLeafName : Crown → List String
  | .leaf n => [n]
  | _ => []

mutual

/-- Modelled from the spec: the names of fields referenced by a `Leaf`
standing directly at a `ListCrown` position, anywhere in the tree. -/
def Crown.listLeafNames : Crown → List String
  | .leaf _ => []
  | .dict _ cs _ => listLeafNamesChildren cs
  | .list es _ => listLeafNamesAtList es

/-- List-position leaf names inside children of a dict crown. -/
def listLeafNamesChildren : List Crown → List String
  | [] => []
  | c :: rest => c.listLeafNames ++ listLeafNamesChildren rest

/-- List-position leaf names of the children of a list crown: the direct
leaves themselves count, then their own nested list positions. -/
def listLeafNamesAtList : List Crown → List String
  | [] => []
  | c :: rest => c.directLeafName ++ c.listLeafNames ++ listLeafNamesAtList rest

end

mutual

/-- Modelled from the spec: whether the crown declares any extra target
(`has_collect_policy` in `basic_gen.py`, outside the analysed slice). -/
def has_collect_policy : Crown → Bool
  | .leaf _ => false
  | .dict _ cs x => x.isSome || hasCollectPolicyList cs
  | .list es x => x.isSome || hasCollectPolicyList es

/-- Whether any crown of a sibling list declares an extra target. -/
def hasCollectPolicyList : List Crown → Bool
  | [] => false
  | c :: rest => has_collect_policy c || hasCollectPolicyList rest

end

/-- Look a field up by name in an ordered field list. -/
def fieldByName (fields : List InputField) (n : String) : Option InputField :=
  fields.find? (fun f => f.name == n)

/-- Modelled from the spec: fields of the figure with no corresponding
`Leaf` in the crown (`get_skipped_fields` in `basic_gen.py`). -/
def get_skipped_fields (figure : InputFigure) (nm : InputNameMapping) : List String :=
  (figure.fields.filter (fun f => !(nm.crown.leafNames.contains f.name))).map (fun f => f.name)

/-- Modelled from the spec: the reduced Shape after removing the skipped
fields (`strip_figure` in `basic_gen.py`). -/
def strip_figure (figure : InputFigure) (skipped : List String) : InputFigure :=
  { figure with fields := figure.fields.filter (fun f => !(skipped.contains f.name)) }

/-- Modelled from the spec: for every `ListCrown` position occupied by a
`Leaf` referencing an optional field, collect the field name
(`get_optional_fields_at_list_crown` in `basic_gen.py`). -/
def get_optional_fields_at_list_crown (fields : List InputField) (crown : Crown) : List String :=
  crown.listLeafNames.filter fun n =>
    match fieldByName fields n with
    | some f => !f.is_required
    | none => false

/-- Modelled from the spec: extra-target field names that also appear as
crown leaves (`get_extra_targets_at_crown` in `basic_gen.py`). -/
def get_extra_targets_at_crown (figure : InputFigure) (nm : InputNameMapping) : List String :=
  match figure.extra with
  | some (.targets ts) => ts.filter (fun t => nm.crown.leafNames.contains t)
  | _ => []

/-- The configuration errors (`ValueError`s) raised by
`BuiltinInputExtractionMaker`; each carries the full offending name list
exactly as interpolated into the source's message. -/
inductive BuildError
  | skippedRequired (names : List String)
  | cannotCollectExtra
  | extraTargetsAtCrown (names : List String)
  | optionalAtListCrown (names : List String)
deriving DecidableEq, Repr

/-- The list interpolated into the message of
`ValueError(f"Required fields ... are skipped")`: names of figure fields
that are required and skipped, in figure field order
(`_process_figure`, `loader_provider.py`). -/
def skipped_required_fields (figure : InputFigure) (nm : InputNameMapping) : List String :=
  (figure.fields.filter
    (fun f => f.is_required && (get_skipped_fields figure nm).contains f.name)).map
    (fun f => f.name)

/-- `BuiltinInputExtractionMaker._process_figure`: fail on skipped required
fields (listing them all), else return the stripped figure. -/
def process_figure (figure : InputFigure) (nm : InputNameMapping) :
    Except BuildError InputFigure :=
  let skipped := get_skipped_fields figure nm
  let skippedRequired := skipped_required_fields figure nm
  if skippedRequired.isEmpty then .ok (strip_figure figure skipped)
  else .error (.skippedRequired skippedRequired)

/-- `BuiltinInputExtractionMaker._validate_params`: the three checks in
source order — extra collection without figure extra, extra targets found
at the crown, optional fields at a list crown. -/
def validate_params (figure processed_figure : InputFigure) (nm : InputNameMapping) :
    Except BuildError Unit :=
  if figure.extra.isNone && has_collect_policy nm.crown then
    .error .cannotCollectExtra
  else
    let extraTargets := get_extra_targets_at_crown figure nm
    if !extraTargets.isEmpty then .error (.extraTargetsAtCrown extraTargets)
    else
      let optionalFields := get_optional_fields_at_list_crown processed_figure.fields nm.crown
      if !optionalFields.isEmpty then .error (.optionalAtListCrown optionalFields)
      else .ok ()

/-- A compiled per-field loader; the pipeline treats it as an opaque value,
so a string token suffices. -/
def Loader := String
deriving instance DecidableEq, Repr for Loader

/-- A `LoaderRequest`: the requested type (by name) and the two conversion
settings threaded through the build. -/
structure LoaderRequest where
  type_name : String
  strict_coercion : Bool
  debug_path : Bool
deriving DecidableEq, Repr

/-- The `mediator.provide` calls and the final compilation a build issues,
in order; the trace used to state the scheduling claims. -/
inductive Event
  | provideFigure
  | provideNameMapping
  | provideFieldLoader (fieldName : String)
  | provideCodeGenHook
  | compileClosure (closureName : String)
deriving DecidableEq, Repr

/-- Whether a trace event is a compilation. -/
def Event.isCompile : Event → Bool
  | .compileClosure _ => true
  | _ => false

/-- The code-generation hook (`CodeGenHookRequest` result): the no-op stub
or some user-supplied hook. -/
inductive CodeGenHook
  | stub
  | custom (id : Nat)
deriving DecidableEq, Repr

/-- Modelled from the spec: the documented no-op default hook
(`stub_code_gen_hook` in `basic_gen.py`). -/
def stub_code_gen_hook : CodeGenHook := .stub

/-- Outcome of one `mediator.provide` call as seen by a caller: a value,
the `CannotProvide` signal, or some other exception. -/
inductive ProvideError
  | cannotProvide
  | other (msg : String)
deriving DecidableEq, Repr

/-- The resolution environment one build runs against: what the mediator
answers for the figure request, the name-mapping request, each per-field
loader request, and the code-gen-hook request. -/
structure MediatorModel where
  figure : InputFigure
  name_mapping : InputNameMapping
  field_loader : String → Loader
  hook_result : Except ProvideError CodeGenHook

/-- The `VarBinder`: a single naming authority instantiated fresh per build
(`ModelLoaderProvider._get_binder`); an identifier suffices since the
pipeline only passes it around. -/
def VarBinder := Nat
deriving instance DecidableEq, Repr for VarBinder

/-- The fresh binder `_get_binder` returns. -/
def fresh_var_binder : VarBinder := (0 : Nat)

/-- The `ContextNamespace` contents: generated variable name to captured
value (`BuiltinContextNamespace.dict`). -/
def CtxNamespace := List (String × Loader)
deriving instance DecidableEq, Repr for CtxNamespace

/-- The fresh empty namespace `BuiltinContextNamespace()` starts with. -/
def empty_namespace : CtxNamespace := []

/-- The two code generators the build composes:
`BuiltinInputExtractionGen(figure, crown, debug_path, field_loaders)` and
`BuiltinInputCreationGen(figure)`, as inert data later run against a
binder/namespace pair. -/
inductive CodeGenerator
  | input_extraction (figure : InputFigure) (crown : Crown) (debug_path : Bool)
      (field_loaders : List (String × Loader))
  | input_creation (figure : InputFigure)

/-- An emitted code fragment; it records which generator produced it and
which binder the generator was invoked with. -/
inductive Fragment
  | extraction (figure : InputFigure) (crown : Crown) (debug_path : Bool)
      (field_loaders : List (String × Loader)) (binder : VarBinder)
  | creation (figure : InputFigure) (binder : VarBinder)

/-- The binder a fragment was generated against. -/
def Fragment.binder : Fragment → VarBinder
  | .extraction _ _ _ _ b => b
  | .creation _ b => b

/-- Whether a fragment is an extraction fragment. -/
def Fragment.isExtraction : Fragment → Bool
  | .extraction _ _ _ _ _ => true
  | .creation _ _ => false

/-- Modelled from the spec: running a generator against a binder and the
namespace built so far yields the emitted fragment and the namespace
extended with the values the generator captured (the per-field loaders for
the extraction generator). -/
def run_gen : CodeGenerator → VarBinder → CtxNamespace → Fragment × CtxNamespace
  | .input_extraction fig crown dp loaders, b, ns =>
      (.extraction fig crown dp loaders b,
       List.append ns (loaders.map (fun p => ("loader_" ++ p.1, p.2))))
  | .input_creation fig, b, ns => (.creation fig b, ns)

/-- `BuiltinInputExtractionMaker._create_extraction_gen`: package the
figure, the crown, the request's `debug_path` and the resolved per-field
loaders into a `BuiltinInputExtractionGen`. -/
def create_extraction_gen (request : LoaderRequest) (figure : InputFigure)
    (nm : InputNameMapping) (field_loaders : List (String × Loader)) : CodeGenerator :=
  .input_extraction figure nm.crown request.debug_path field_loaders

/-- `BuiltinInputExtractionMaker.__call__`: provide the figure, provide the
name mapping, process the figure, validate, then provide one loader per
remaining field (in field order, keyed by name) and build the extraction
generator. Returns the trace of mediator/compile events alongside the
result. -/
def input_extraction_maker_call (m : MediatorModel) (request : LoaderRequest) :
    List Event × Except BuildError (CodeGenerator × InputFigure) :=
  let figure := m.figure
  let nm := m.name_mapping
  let evts : List Event := [.provideFigure, .provideNameMapping]
  match process_figure figure nm with
  | .error e => (evts, .error e)
  | .ok processed_figure =>
    match validate_params figure processed_figure nm with
    | .error e => (evts, .error e)
    | .ok _ =>
      let field_loaders := processed_figure.fields.map (fun f => (f.name, m.field_loader f.name))
      (evts ++ processed_figure.fields.map (fun f => Event.provideFieldLoader f.name),
       .ok (create_extraction_gen request figure nm field_loaders, figure))

/-- `make_input_creation`: ignore the mediator and the request, build a
`BuiltinInputCreationGen` for the figure. -/
def make_input_creation (_m : MediatorModel) (_request : LoaderRequest)
    (figure : InputFigure) : CodeGenerator :=
  .input_creation figure

/-- The `try: mediator.provide(CodeGenHookRequest()) except CannotProvide:`
block of `ModelLoaderProvider._provide_loader`: `CannotProvide` is replaced
by the stub hook, any other failure is re-raised, a provided hook is kept. -/
def resolve_code_gen_hook (res : Except ProvideError CodeGenHook) :
    Except String CodeGenHook :=
  match res with
  | .ok h => .ok h
  | .error .cannotProvide => .ok stub_code_gen_hook
  | .error (.other msg) => .error msg

/-- Modelled from the spec: the `NameSanitizer` collaborator is external;
sanitization is taken as the identity. -/
def sanitize (name : String) : String := name

/-- `ModelLoaderProvider._get_closure_name`: "model_loader" plus the
sanitized type name when non-empty. -/
def closure_name (request : LoaderRequest) : String :=
  let s := sanitize request.type_name
  if s == "" then "model_loader" else "model_loader" ++ "_" ++ s

/-- The single invocation of `compile_closure_with_globals_capturing` a
build performs, with everything the source passes to it. -/
structure CompilerCall where
  hook : CodeGenHook
  binder : VarBinder
  ns : CtxNamespace
  body_builders : List Fragment
  name : String

/-- A failed build: a configuration error from validation, or a non-
`CannotProvide` failure propagating out of the hook request. -/
inductive PipelineError
  | config (e : BuildError)
  | hookFailure (msg : String)

/-- `ModelLoaderProvider._provide_loader`: run the extraction maker, the
creation maker, resolve the hook, make one fresh binder and one fresh
namespace, run the extraction generator then the creation generator against
that same binder with the namespace threaded through, and compile once with
the two fragments in that order. The trace records every mediator provide
and the compilation. -/
def provide_loader (m : MediatorModel) (request : LoaderRequest) :
    List Event × Except PipelineError CompilerCall :=
  match input_extraction_maker_call m request with
  | (evts, .error e) => (evts, .error (.config e))
  | (evts, .ok (extraction_gen, figure)) =>
    let creation_gen := make_input_creation m request figure
    let evts1 := evts ++ [Event.provideCodeGenHook]
    match resolve_code_gen_hook m.hook_result with
    | .error msg => (evts1, .error (.hookFailure msg))
    | .ok hook =>
      let binder := fresh_var_binder
      let extractionRun := run_gen extraction_gen binder empty_namespace
      let creationRun := run_gen creation_gen binder extractionRun.2
      (evts1 ++ [Event.compileClosure (closure_name request)],
       .ok { hook := hook
             binder := binder
             ns := creationRun.2
             body_builders := [extractionRun.1, creationRun.1]
             name := closure_name request })

/-- A typed query to the resolution core; identified here by its printable
name (`str(request)`). -/
structure Request where
  name : String
deriving DecidableEq, Repr

/-- What one provider's `apply_provider` does with a request: produce a
result or raise the `CannotProvide` control-flow signal. -/
inductive ApplyResult (α : Type)
  | ok (a : α)
  | cannotProvide
deriving DecidableEq, Repr

/-- Modelled from the spec: the Mediator's `provide` — try each registered
provider for the request in registration order, return the first result,
and when every provider signals `CannotProvide` fail terminally with the
message naming the request (the message of `TestRetort.provide` in
`tests_helpers.py`). -/
def mediator_provide {α : Type} (providers : List (Request → ApplyResult α))
    (req : Request) : Except String α :=
  match providers with
  | [] => .error ("cannot provide " ++ req.name)
  | p :: rest =>
    match p req with
    | .ok a => .ok a
    | .cannotProvide => mediator_provide rest req

/-- Outcome of `msgspec.convert`: a typed value, a
`msgspec.ValidationError`, or any other exception. -/
inductive ConvertResult (τ : Type)
  | ok (v : τ)
  | validationError (msg : String)
  | otherError (msg : String)
deriving DecidableEq, Repr

/-- Outcome of calling a produced loader: the typed instance, the
structured `LoadError` raised on non-conforming input, or an uncaught
exception propagating out. -/
inductive LoadOutcome (τ : Type)
  | ok (v : τ)
  | loadError
  | uncaught (msg : String)
deriving DecidableEq, Repr

/-- `NativeMsgspecProvider._skip_omitted`: drop the parameters whose value
is `Omitted()` (modelled as `none`). -/
def skip_omitted (params : List (String × Option String)) : List (String × String) :=
  params.filterMap (fun p => p.2.map (fun v => (p.1, v)))

/-- `NativeMsgspecProvider.provide_loader`: the produced loader calls
`msgspec.convert` with the non-omitted conversion parameters, returns its
result, and turns `msgspec.ValidationError` into a raised `LoadError`;
any other exception propagates. The source's two branches (with and
without keyword parameters) differ only in the parameters handed to
`convert`, so they collapse onto the parameter list here. -/
def native_msgspec_loader {δ τ : Type}
    (convert : List (String × String) → δ → ConvertResult τ)
    (conversion_params : List (String × Option String)) (data : δ) : LoadOutcome τ :=
  match convert (skip_omitted conversion_params) data with
  | .ok v => .ok v
  | .validationError _ => .loadError
  | .otherError msg => .uncaught msg

/-- `NativeMsgspecProvider.provide_dumper`: the produced dumper is
`msgspec.to_builtins` applied with the non-omitted parameters; no
try/except — whatever `to_builtins` does is the dumper's outcome. -/
def native_msgspec_dumper {τ δ : Type}
    (to_builtins : List (String × String) → τ → Except String δ)
    (to_builtins_params : List (String × Option String)) (value : τ) : Except String δ :=
  to_builtins (skip_omitted to_builtins_params) value

/-- A Python object as far as `resolve_classmethod` inspects it: a type
object (carrying the answer `is_user_defined_generic` would give for it)
or a non-type object. -/
inductive PyObject
  | typeObj (name : String) (userDefinedGeneric : Bool)
  | nonType (name : String)
deriving DecidableEq, Repr

/-- The argument of `resolve_classmethod`: a bound method (`MethodType` or
`BuiltinMethodType`, with its `__self__`) or any non-method value. -/
inductive FuncArg
  | method (isBuiltin : Bool) (selfObj : PyObject)
  | plain (name : String)
deriving DecidableEq, Repr

/-- Modelled from the spec: `is_user_defined_generic` from `type_tools`
(outside the analysed slice) — read off the type object; a non-type is
never a user-defined generic. -/
def is_user_defined_generic : PyObject → Bool
  | .typeObj _ g => g
  | .nonType _ => false

/-- `resolve_classmethod` (`high_level/utils.py`): reject non-methods,
reject methods whose `__self__` is not a type, reject user-defined generic
classes; otherwise return `(bound, func)`. Errors are the `ValueError`
messages of the source. -/
def resolve_classmethod (func : FuncArg) : Except String (PyObject × FuncArg) :=
  match func with
  | .plain _ => .error "as_constructor() with one argument expects classmethod"
  | .method ib bound =>
    match bound with
    | .nonType _ => .error "as_constructor() with one argument expects classmethod"
    | .typeObj n g =>
      if is_user_defined_generic (.typeObj n g) then
        .error "as_constructor() with one argument does not support generic"
      else
        .ok (.typeObj n g, .method ib (.typeObj n g))

/-! ### Shared lemmas -/

/-- When every registered provider signals `CannotProvide`, `provide` fails
with the terminal error naming the request. -/
theorem mediator_provide_of_all_cannotProvide {α : Type}
    (ps : List (Request → ApplyResult α)) (req : Request)
    (h : ∀ p ∈ ps, p req = .cannotProvide) :
    mediator_provide ps req = .error ("cannot provide " ++ req.name) := by
  induction ps with
  | nil => rfl
  | cons p rest ih =>
    have hp := h p (List.mem_cons_self _ _)
    simp only [mediator_provide, hp]
    exact ih (fun q hq => h q (List.mem_cons_of_mem _ hq))

/-- `provide` returns the result of the first provider (in registration
order) that does not signal `CannotProvide`. -/
theorem mediator_provide_of_first_ok {α : Type} :
    ∀ (ps : List (Request → ApplyResult α)) (req : Request) (i : Nat)
      (h : i < ps.length) (v : α),
      (∀ (j : Nat) (hj : j < i), (ps.get ⟨j, Nat.lt_trans hj h⟩) req = .cannotProvide) →
      (ps.get ⟨i, h⟩) req = .ok v →
      mediator_provide ps req = .ok v := by
  intro ps
  induction ps with
  | nil => intro req i h v _ _; exact absurd h (Nat.not_lt_zero i)
  | cons p rest ih =>
    intro req i h v hbefore hok
    cases i with
    | zero =>
      simp only [List.get] at hok
      simp only [mediator_provide, hok]
    | succ i' =>
      have hp : p req = .cannotProvide := hbefore 0 (Nat.succ_pos i')
      simp only [mediator_provide, hp]
      exact ih req i' (Nat.lt_of_succ_lt_succ h) v
        (fun j hj => hbefore (j + 1) (Nat.succ_lt_succ hj))
        hok

/-- Running any generator records the binder it was invoked with in the
emitted fragment. -/
theorem run_gen_binder (g : CodeGenerator) (b : VarBinder) (ns : CtxNamespace) :
    (run_gen g b ns).1.binder = b := by
  cases g <;> rfl

/-- The extraction maker's trace contains no compilation event: it only
issues mediator provides. -/
theorem maker_trace_no_compile (m : MediatorModel) (request : LoaderRequest) :
    (input_extraction_maker_call m request).1.filter Event.isCompile = [] := by
  cases hp : process_figure m.figure m.name_mapping with
  | error e => simp [input_extraction_maker_call, hp, Event.isCompile]
  | ok pf =>
    cases hv : validate_params m.figure pf m.name_mapping with
    | error e => simp [input_extraction_maker_call, hp, hv, Event.isCompile]
    | ok u =>
      simp [input_extraction_maker_call, hp, hv, Event.isCompile,
        List.filter_map, Function.comp_def]

/-! ### Claim theorems -/

/-- C1: for every ordered sequence of providers registered for a request
kind, `provide(request)` returns the result of the first provider in
registration order that does not signal `CannotProvide`; if every
registered provider signals `CannotProvide`, `provide` fails with a
terminal error that names the request. -/
theorem mediator_provide_first_applicable {α : Type}
    (providers : List (Request → ApplyResult α)) (req : Request) :
    (∀ (i : Nat) (h : i < providers.length) (v : α),
      (∀ (j : Nat) (hj : j < i),
        (providers.get ⟨j, Nat.lt_trans hj h⟩) req = .cannotProvide) →
      (providers.get ⟨i, h⟩) req = .ok v →
      mediator_provide providers req = .ok v)
    ∧ ((∀ p ∈ providers, p req = .cannotProvide) →
      mediator_provide providers req = .error ("cannot provide " ++ req.name)) :=
  ⟨fun i h v hb hok => mediator_provide_of_first_ok providers req i h v hb hok,
   fun h => mediator_provide_of_all_cannotProvide providers req h⟩

/-- C1 instantiated: providers P1, P2 signal inapplicability and P3
succeeds, so `provide` returns P3's result; when all three signal
inapplicability, `provide` fails naming the request. -/
theorem mediator_provide_first_applicable_instance :
    mediator_provide
      [fun _ => ApplyResult.cannotProvide, fun _ => ApplyResult.cannotProvide,
       fun _ => ApplyResult.ok (7 : Nat)] ⟨"loader for int"⟩ = .ok 7
    ∧ mediator_provide
      [fun _ => ApplyResult.cannotProvide, fun _ => ApplyResult.cannotProvide,
       fun _ => (ApplyResult.cannotProvide : ApplyResult Nat)] ⟨"loader for int"⟩ =
      .error ("cannot provide " ++ "loader for int") := by
  constructor
  · exact (mediator_provide_first_applicable _ _).1 2 (by decide) 7
      (fun j hj => by
        match j, hj with
        | 0, _ => rfl
        | 1, _ => rfl)
      rfl
  · refine (mediator_provide_first_applicable _ _).2 (fun p hp => ?_)
    rcases List.mem_cons.mp hp with rfl | hp
    · rfl
    rcases List.mem_cons.mp hp with rfl | hp
    · rfl
    rcases List.mem_cons.mp hp with rfl | hp
    · rfl
    · exact absurd hp (List.not_mem_nil p)

/-- C2: when some required field has no corresponding leaf in the crown,
`_process_figure` fails with a configuration error carrying the complete
set of skipped required field names (every offender, in field order, as
the membership characterisation states); when that set is empty, the
build proceeds past this check with the stripped figure. -/
theorem process_figure_skipped_required_complete
    (figure : InputFigure) (nm : InputNameMapping) :
    (skipped_required_fields figure nm ≠ [] →
      process_figure figure nm =
        .error (.skippedRequired (skipped_required_fields figure nm)))
    ∧ (skipped_required_fields figure nm = [] →
      process_figure figure nm =
        .ok (strip_figure figure (get_skipped_fields figure nm)))
    ∧ (∀ n, n ∈ skipped_required_fields figure nm ↔
        ∃ f ∈ figure.fields, f.name = n ∧ f.is_required = true ∧
          n ∉ nm.crown.leafNames) := by
  refine ⟨?_, ?_, ?_⟩
  · intro hne
    cases hsrf : skipped_required_fields figure nm with
    | nil => exact absurd hsrf hne
    | cons a l => simp [process_figure, hsrf]
  · intro hnil
    simp [process_figure, hnil]
  · intro n
    simp only [skipped_required_fields, get_skipped_fields, List.mem_map,
      List.mem_filter, List.contains, Bool.and_eq_true, List.elem_iff,
      Bool.not_eq_true']
    constructor
    · rintro ⟨f, ⟨hf, hreq, hskip⟩, rfl⟩
      rcases hskip with ⟨g, ⟨hg, hgleaf⟩, hgname⟩
      refine ⟨f, hf, rfl, hreq, ?_⟩
      rw [← hgname]
      exact fun hmem => by
        rw [List.elem_iff.mpr hmem] at hgleaf
        exact Bool.noConfusion hgleaf
    · rintro ⟨f, hf, rfl, hreq, hleaf⟩
      refine ⟨f, ⟨hf, hreq, ⟨f, ⟨hf, ?_⟩, rfl⟩⟩, rfl⟩
      cases helem : nm.crown.leafNames.elem f.name with
      | false => rfl
      | true => exact absurd (List.elem_iff.mp helem) hleaf

/-- C2 instantiated: for the shape `[a : int required, b : str optional]`
and a crown omitting `a`, the build fails listing exactly `["a"]`. -/
theorem process_figure_skipped_required_complete_instance :
    skipped_required_fields
      ⟨[⟨"a", true⟩, ⟨"b", false⟩], none⟩ ⟨.dict ["b"] [.leaf "b"] none⟩ ≠ []
    ∧ process_figure
      ⟨[⟨"a", true⟩, ⟨"b", false⟩], none⟩ ⟨.dict ["b"] [.leaf "b"] none⟩ =
      .error (.skippedRequired ["a"]) := by
  refine ⟨by decide, ?_⟩
  have h := (process_figure_skipped_required_complete
    ⟨[⟨"a", true⟩, ⟨"b", false⟩], none⟩ ⟨.dict ["b"] [.leaf "b"] none⟩).1 (by decide)
  exact h.trans (by rfl)

/-- C4: for a pairing that passes the extra-data checks, if any list-crown
position is occupied by a leaf referencing an optional field, validation
fails with a configuration error listing the complete set of such field
names (membership characterised below); a list crown all of whose leaf
positions reference required fields passes this check. -/
theorem optional_fields_at_list_crown_check
    (figure processed_figure : InputFigure) (nm : InputNameMapping)
    (hextra : (figure.extra.isNone && has_collect_policy nm.crown) = false)
    (htargets : get_extra_targets_at_crown figure nm = []) :
    (get_optional_fields_at_list_crown processed_figure.fields nm.crown ≠ [] →
      validate_params figure processed_figure nm =
        .error (.optionalAtListCrown
          (get_optional_fields_at_list_crown processed_figure.fields nm.crown)))
    ∧ ((∀ n ∈ nm.crown.listLeafNames, ∀ f,
        fieldByName processed_figure.fields n = some f → f.is_required = true) →
      validate_params figure processed_figure nm = .ok ())
    ∧ (∀ n, n ∈ get_optional_fields_at_list_crown processed_figure.fields nm.crown ↔
        n ∈ nm.crown.listLeafNames ∧
          ∃ f, fieldByName processed_figure.fields n = some f ∧
            f.is_required = false) := by
  refine ⟨?_, ?_, ?_⟩
  · intro hne
    cases hofl : get_optional_fields_at_list_crown processed_figure.fields nm.crown with
    | nil => exact absurd hofl hne
    | cons a l => simp [validate_params, hextra, htargets, hofl]
  · intro hall
    have hofl : get_optional_fields_at_list_crown processed_figure.fields nm.crown = [] := by
      unfold get_optional_fields_at_list_crown
      refine List.filter_eq_nil_iff.mpr (fun n hn => ?_)
      cases hf : fieldByName processed_figure.fields n with
      | none => simp [hf]
      | some f => simp [hf, hall n hn f hf]
    simp [validate_params, hextra, htargets, hofl]
  · intro n
    unfold get_optional_fields_at_list_crown
    rw [List.mem_filter]
    refine and_congr_right (fun _ => ?_)
    cases hf : fieldByName processed_figure.fields n with
    | none => simp [hf]
    | some f => simp [hf, Bool.not_eq_true']

/-- C4 instantiated: a list crown whose second position is a leaf of the
optional field `b` makes validation fail listing exactly `["b"]`. -/
theorem optional_fields_at_list_crown_check_instance :
    validate_params ⟨[⟨"a", true⟩, ⟨"b", false⟩], none⟩
      ⟨[⟨"a", true⟩, ⟨"b", false⟩], none⟩ ⟨.list [.leaf "a", .leaf "b"] none⟩ =
      .error (.optionalAtListCrown ["b"]) := by
  have h := (optional_fields_at_list_crown_check
    ⟨[⟨"a", true⟩, ⟨"b", false⟩], none⟩ ⟨[⟨"a", true⟩, ⟨"b", false⟩], none⟩
    ⟨.list [.leaf "a", .leaf "b"] none⟩ (by decide) (by decide)).1 (by decide)
  exact h.trans (by rfl)

/-- C5: a shape whose extra-data policy is `none` paired with a crown
declaring an extra target fails validation with a configuration error;
conversely a validated build with a crown extra target has a shape that
accepts extra data. -/
theorem extra_target_requires_collect_policy
    (figure processed_figure : InputFigure) (nm : InputNameMapping) :
    (figure.extra = none → has_collect_policy nm.crown = true →
      validate_params figure processed_figure nm = .error .cannotCollectExtra)
    ∧ (validate_params figure processed_figure nm = .ok () →
      has_collect_policy nm.crown = true → figure.extra ≠ none) := by
  constructor
  · intro hex hc
    simp [validate_params, hex, hc]
  · intro hok hc hex
    simp [validate_params, hex, hc] at hok

/-- C5 instantiated: a shape with extra policy `none` and a dict crown
declaring the extra target `rest` fails validation with the
extra-collection configuration error. -/
theorem extra_target_requires_collect_policy_instance :
    validate_params ⟨[⟨"a", true⟩], none⟩ ⟨[⟨"a", true⟩], none⟩
      ⟨.dict ["a"] [.leaf "a"] (some "rest")⟩ = .error .cannotCollectExtra :=
  (extra_target_requires_collect_policy ⟨[⟨"a", true⟩], none⟩ ⟨[⟨"a", true⟩], none⟩
    ⟨.dict ["a"] [.leaf "a"] (some "rest")⟩).1 rfl (by decide)

/-- C3: when any validation pass fails, the build aborts with a
configuration error after only the figure and name-mapping provides: no
per-field loader is requested and nothing is compiled. -/
theorem validation_failure_aborts_before_resolution
    (m : MediatorModel) (request : LoaderRequest)
    (hfail : (∃ e, process_figure m.figure m.name_mapping = .error e) ∨
      (∃ pf e, process_figure m.figure m.name_mapping = .ok pf ∧
        validate_params m.figure pf m.name_mapping = .error e)) :
    (provide_loader m request).1 = [.provideFigure, .provideNameMapping]
    ∧ (∀ n, Event.provideFieldLoader n ∉ (provide_loader m request).1)
    ∧ (∀ s, Event.compileClosure s ∉ (provide_loader m request).1)
    ∧ (∃ e, (provide_loader m request).2 = .error (.config e)) := by
  have hcall : ∃ e, input_extraction_maker_call m request =
      ([.provideFigure, .provideNameMapping], .error e) := by
    rcases hfail with ⟨e, hp⟩ | ⟨pf, e, hp, hv⟩
    · exact ⟨e, by simp [input_extraction_maker_call, hp]⟩
    · exact ⟨e, by simp [input_extraction_maker_call, hp, hv]⟩
  rcases hcall with ⟨e, hcall⟩
  have hpl : provide_loader m request =
      ([.provideFigure, .provideNameMapping], .error (.config e)) := by
    simp [provide_loader, hcall]
  rw [hpl]
  refine ⟨rfl, ?_, ?_, ⟨e, rfl⟩⟩
  · intro n h
    simp at h
  · intro s h
    simp at h

/-- C3 instantiated: a mediator model whose crown skips the required field
`a` aborts the build right after the figure and name-mapping provides. -/
theorem validation_failure_aborts_before_resolution_instance :
    (provide_loader
      ⟨⟨[⟨"a", true⟩, ⟨"b", false⟩], none⟩, ⟨.dict ["b"] [.leaf "b"] none⟩,
        fun n => (n : String), .error .cannotProvide⟩
      ⟨"Book", true, true⟩).1 = [.provideFigure, .provideNameMapping]
    ∧ Event.provideFieldLoader "b" ∉ (provide_loader
      ⟨⟨[⟨"a", true⟩, ⟨"b", false⟩], none⟩, ⟨.dict ["b"] [.leaf "b"] none⟩,
        fun n => (n : String), .error .cannotProvide⟩
      ⟨"Book", true, true⟩).1
    ∧ Event.compileClosure "model_loader_Book" ∉ (provide_loader
      ⟨⟨[⟨"a", true⟩, ⟨"b", false⟩], none⟩, ⟨.dict ["b"] [.leaf "b"] none⟩,
        fun n => (n : String), .error .cannotProvide⟩
      ⟨"Book", true, true⟩).1 := by
  have h := validation_failure_aborts_before_resolution
    ⟨⟨[⟨"a", true⟩, ⟨"b", false⟩], none⟩, ⟨.dict ["b"] [.leaf "b"] none⟩,
      fun n => (n : String), .error .cannotProvide⟩
    ⟨"Book", true, true⟩
    (Or.inl ⟨.skippedRequired ["a"], rfl⟩)
  exact ⟨h.1, h.2.1 "b", h.2.2.1 "model_loader_Book"⟩

/-- C7: a build that passes validation issues exactly one nested loader
request per field remaining after stripping the mapping-skipped fields,
keyed by its name, in field order, and issues none for any skipped
field. -/
theorem field_loaders_resolved_for_remaining_fields
    (m : MediatorModel) (request : LoaderRequest) (processed_figure : InputFigure)
    (hp : process_figure m.figure m.name_mapping = .ok processed_figure)
    (hv : validate_params m.figure processed_figure m.name_mapping = .ok ()) :
    processed_figure = strip_figure m.figure (get_skipped_fields m.figure m.name_mapping)
    ∧ (input_extraction_maker_call m request).1 =
      [.provideFigure, .provideNameMapping] ++
        processed_figure.fields.map (fun f => Event.provideFieldLoader f.name)
    ∧ (input_extraction_maker_call m request).2 =
      .ok (create_extraction_gen request m.figure m.name_mapping
        (processed_figure.fields.map (fun f => (f.name, m.field_loader f.name))),
        m.figure)
    ∧ (∀ n ∈ get_skipped_fields m.figure m.name_mapping,
        Event.provideFieldLoader n ∉ (input_extraction_maker_call m request).1) := by
  have hstrip : processed_figure =
      strip_figure m.figure (get_skipped_fields m.figure m.name_mapping) := by
    cases hsrf : (skipped_required_fields m.figure m.name_mapping).isEmpty with
    | true =>
      simp [process_figure, hsrf] at hp
      exact hp.symm
    | false =>
      simp [process_figure, hsrf] at hp
  have htrace : (input_extraction_maker_call m request).1 =
      [.provideFigure, .provideNameMapping] ++
        processed_figure.fields.map (fun f => Event.provideFieldLoader f.name) := by
    simp [input_extraction_maker_call, hp, hv]
  refine ⟨hstrip, htrace, ?_, ?_⟩
  · simp [input_extraction_maker_call, hp, hv]
  · intro n hn hmem
    rw [htrace] at hmem
    simp only [List.mem_append, List.mem_cons, List.mem_map,
      List.not_mem_nil, or_false] at hmem
    rcases hmem with (h | h) | ⟨f, hf, hfn⟩
    · exact Event.noConfusion h
    · exact Event.noConfusion h
    · have hn' : f.name = n := by injection hfn
      rw [hstrip] at hf
      simp only [strip_figure, List.mem_filter] at hf
      rw [hn'] at hf
      rw [List.contains_eq_any_beq] at hf
      have := hf.2
      rw [Bool.not_eq_true', List.any_eq_false] at this
      simpa using this n hn

/-- C7 instantiated: with the optional field `b` excluded by the mapping,
one loader request is issued for `a` and none for `b`. -/
theorem field_loaders_resolved_for_remaining_fields_instance :
    (input_extraction_maker_call
      ⟨⟨[⟨"a", true⟩, ⟨"b", false⟩], none⟩, ⟨.dict ["a"] [.leaf "a"] none⟩,
        fun n => (n : String), .error .cannotProvide⟩
      ⟨"Book", true, true⟩).1 =
      [.provideFigure, .provideNameMapping, .provideFieldLoader "a"]
    ∧ Event.provideFieldLoader "b" ∉ (input_extraction_maker_call
      ⟨⟨[⟨"a", true⟩, ⟨"b", false⟩], none⟩, ⟨.dict ["a"] [.leaf "a"] none⟩,
        fun n => (n : String), .error .cannotProvide⟩
      ⟨"Book", true, true⟩).1 := by
  have h := field_loaders_resolved_for_remaining_fields
    ⟨⟨[⟨"a", true⟩, ⟨"b", false⟩], none⟩, ⟨.dict ["a"] [.leaf "a"] none⟩,
      fun n => (n : String), .error .cannotProvide⟩
    ⟨"Book", true, true⟩ ⟨[⟨"a", true⟩], none⟩ rfl rfl
  exact ⟨h.2.1.trans (by rfl), h.2.2.2 "b" (by decide)⟩

/-- C6: a successful build runs the extraction generator and the creation
generator against the one fresh binder and one namespace threaded from the
extraction run into the creation run, and invokes the compiler exactly
once, on the extraction fragment followed by the creation fragment. -/
theorem single_compilation_shared_binder_namespace
    (m : MediatorModel) (request : LoaderRequest) (gen : CodeGenerator)
    (figure : InputFigure) (cc : CompilerCall)
    (hmaker : (input_extraction_maker_call m request).2 = .ok (gen, figure))
    (hok : (provide_loader m request).2 = .ok cc) :
    cc.binder = fresh_var_binder
    ∧ cc.body_builders =
      [(run_gen gen fresh_var_binder empty_namespace).1,
       (run_gen (make_input_creation m request figure) fresh_var_binder
         (run_gen gen fresh_var_binder empty_namespace).2).1]
    ∧ cc.body_builders.map Fragment.binder = [fresh_var_binder, fresh_var_binder]
    ∧ cc.ns = (run_gen (make_input_creation m request figure) fresh_var_binder
        (run_gen gen fresh_var_binder empty_namespace).2).2
    ∧ ((provide_loader m request).1.filter Event.isCompile).length = 1 := by
  rcases hcp : input_extraction_maker_call m request with ⟨evts, r⟩
  rw [hcp] at hmaker
  obtain rfl : r = Except.ok (gen, figure) := hmaker
  cases hh : resolve_code_gen_hook m.hook_result with
  | error msg =>
    rw [show provide_loader m request =
        (evts ++ [Event.provideCodeGenHook], .error (.hookFailure msg)) by
      simp [provide_loader, hcp, hh]] at hok
    exact Except.noConfusion hok
  | ok hk =>
    have hpl : provide_loader m request =
        (evts ++ [Event.provideCodeGenHook] ++
          [Event.compileClosure (closure_name request)],
         .ok { hook := hk, binder := fresh_var_binder,
               ns := (run_gen (make_input_creation m request figure) fresh_var_binder
                 (run_gen gen fresh_var_binder empty_namespace).2).2,
               body_builders :=
                 [(run_gen gen fresh_var_binder empty_namespace).1,
                  (run_gen (make_input_creation m request figure) fresh_var_binder
                    (run_gen gen fresh_var_binder empty_namespace).2).1],
               name := closure_name request }) := by
      simp [provide_loader, hcp, hh]
    rw [hpl] at hok
    injection hok with hok
    subst hok
    refine ⟨rfl, rfl, ?_, rfl, ?_⟩
    · simp [run_gen_binder]
    · rw [hpl]
      have hevts : evts.filter Event.isCompile = [] := by
        have := maker_trace_no_compile m request
        rw [hcp] at this
        exact this
      simp [List.filter_append, hevts, Event.isCompile]

/-- C6 instantiated: the happy-path build compiles once with the two
fragments bound to the same fresh binder. -/
theorem single_compilation_shared_binder_namespace_instance :
    ((provide_loader
      ⟨⟨[⟨"a", true⟩], none⟩, ⟨.dict ["a"] [.leaf "a"] none⟩,
        fun n => (n : String), .error .cannotProvide⟩
      ⟨"Book", true, true⟩).1.filter Event.isCompile).length = 1 := by
  have h := single_compilation_shared_binder_namespace
    ⟨⟨[⟨"a", true⟩], none⟩, ⟨.dict ["a"] [.leaf "a"] none⟩,
      fun n => (n : String), .error .cannotProvide⟩
    ⟨"Book", true, true⟩
    (.input_extraction ⟨[⟨"a", true⟩], none⟩ (.dict ["a"] [.leaf "a"] none) true
      [("a", ("a" : String))])
    ⟨[⟨"a", true⟩], none⟩
    { hook := .stub, binder := fresh_var_binder,
      ns := [("loader_" ++ "a", ("a" : String))],
      body_builders :=
        [.extraction ⟨[⟨"a", true⟩], none⟩ (.dict ["a"] [.leaf "a"] none) true
          [("a", ("a" : String))] fresh_var_binder,
         .creation ⟨[⟨"a", true⟩], none⟩ fresh_var_binder],
      name := "model_loader_Book" }
    rfl rfl
  exact h.2.2.2.2

/-- C8: resolving the optional code-generation hook catches exactly the
`CannotProvide` signal, substituting the documented no-op stub; a provided
hook is kept, and any other failure propagates unchanged out of the
build. -/
theorem code_gen_hook_cannot_provide_fallback
    (res : Except ProvideError CodeGenHook) (m : MediatorModel)
    (request : LoaderRequest) :
    (res = .error .cannotProvide → resolve_code_gen_hook res = .ok stub_code_gen_hook)
    ∧ (∀ msg, res = .error (.other msg) → resolve_code_gen_hook res = .error msg)
    ∧ (∀ hk, res = .ok hk → resolve_code_gen_hook res = .ok hk)
    ∧ (∀ msg gen figure, m.hook_result = .error (.other msg) →
        (input_extraction_maker_call m request).2 = .ok (gen, figure) →
        (provide_loader m request).2 = .error (.hookFailure msg))
    ∧ (∀ cc, m.hook_result = .error .cannotProvide →
        (provide_loader m request).2 = .ok cc → cc.hook = stub_code_gen_hook) := by
  refine ⟨?_, ?_, ?_, ?_, ?_⟩
  · intro h
    subst h
    rfl
  · intro msg h
    subst h
    rfl
  · intro hk h
    subst h
    rfl
  · intro msg gen figure hh hmk
    rcases hcp : input_extraction_maker_call m request with ⟨evts, r⟩
    rw [hcp] at hmk
    obtain rfl : r = Except.ok (gen, figure) := hmk
    simp [provide_loader, hcp, resolve_code_gen_hook, hh]
  · intro cc hh hok
    rcases hcp : input_extraction_maker_call m request with ⟨evts, r⟩
    cases r with
    | error e =>
      rw [show provide_loader m request = (evts, .error (.config e)) by
        simp [provide_loader, hcp]] at hok
      exact Except.noConfusion hok
    | ok p =>
      rcases p with ⟨gen, figure⟩
      have hpl : (provide_loader m request).2 =
          .ok { hook := stub_code_gen_hook, binder := fresh_var_binder,
                ns := (run_gen (make_input_creation m request figure) fresh_var_binder
                  (run_gen gen fresh_var_binder empty_namespace).2).2,
                body_builders :=
                  [(run_gen gen fresh_var_binder empty_namespace).1,
                   (run_gen (make_input_creation m request figure) fresh_var_binder
                     (run_gen gen fresh_var_binder empty_namespace).2).1],
                name := closure_name request } := by
        simp [provide_loader, hcp, resolve_code_gen_hook, hh]
      rw [hpl] at hok
      injection hok with hok
      subst hok
      rfl

/-- C8 instantiated: the hook request answering `CannotProvide` leaves the
stub hook in the compiled unit, and an unrelated hook failure aborts the
build with that failure. -/
theorem code_gen_hook_cannot_provide_fallback_instance :
    resolve_code_gen_hook (.error .cannotProvide) = .ok stub_code_gen_hook
    ∧ resolve_code_gen_hook (.error (.other "boom")) = .error "boom"
    ∧ resolve_code_gen_hook (.ok (.custom 3)) = .ok (.custom 3)
    ∧ (provide_loader
        ⟨⟨[⟨"a", true⟩], none⟩, ⟨.dict ["a"] [.leaf "a"] none⟩,
          fun n => (n : String), .error (.other "boom")⟩
        ⟨"Book", true, true⟩).2 = .error (.hookFailure "boom") := by
  have h := code_gen_hook_cannot_provide_fallback
    (.error (.other "boom"))
    ⟨⟨[⟨"a", true⟩], none⟩, ⟨.dict ["a"] [.leaf "a"] none⟩,
      fun n => (n : String), .error (.other "boom")⟩
    ⟨"Book", true, true⟩
  have h0 := code_gen_hook_cannot_provide_fallback
    (.error .cannotProvide)
    ⟨⟨[⟨"a", true⟩], none⟩, ⟨.dict ["a"] [.leaf "a"] none⟩,
      fun n => (n : String), .error .cannotProvide⟩
    ⟨"Book", true, true⟩
  refine ⟨h0.1 rfl, h.2.1 "boom" rfl, ?_, ?_⟩
  · exact (code_gen_hook_cannot_provide_fallback (.ok (.custom 3))
      ⟨⟨[⟨"a", true⟩], none⟩, ⟨.dict ["a"] [.leaf "a"] none⟩,
        fun n => (n : String), .error .cannotProvide⟩
      ⟨"Book", true, true⟩).2.2.1 (.custom 3) rfl
  · exact h.2.2.2.1 "boom"
      (.input_extraction ⟨[⟨"a", true⟩], none⟩ (.dict ["a"] [.leaf "a"] none) true
        [("a", ("a" : String))])
      ⟨[⟨"a", true⟩], none⟩ rfl rfl

/-- C9: the produced native-msgspec loader returns the typed instance when
`msgspec.convert` accepts the value and raises the structured `LoadError`
exactly when the conversion rejects it as non-conforming; the produced
dumper is the parameterised conversion to builtins itself, with no failure
translated into a load error. -/
theorem native_msgspec_loader_dumper_behavior {δ τ : Type}
    (convert : List (String × String) → δ → ConvertResult τ)
    (conversion_params : List (String × Option String)) (data : δ)
    (to_builtins : List (String × String) → τ → Except String δ)
    (to_builtins_params : List (String × Option String)) (value : τ) :
    (∀ v, convert (skip_omitted conversion_params) data = .ok v →
      native_msgspec_loader convert conversion_params data = .ok v)
    ∧ (∀ msg, convert (skip_omitted conversion_params) data = .validationError msg →
      native_msgspec_loader convert conversion_params data = .loadError)
    ∧ (∀ msg, convert (skip_omitted conversion_params) data = .otherError msg →
      native_msgspec_loader convert conversion_params data = .uncaught msg)
    ∧ native_msgspec_dumper to_builtins to_builtins_params value =
      to_builtins (skip_omitted to_builtins_params) value := by
  refine ⟨?_, ?_, ?_, rfl⟩
  · intro v h
    simp [native_msgspec_loader, h]
  · intro msg h
    simp [native_msgspec_loader, h]
  · intro msg h
    simp [native_msgspec_loader, h]

/-- C9 instantiated: with a conversion accepting `0` and rejecting `1` as
non-conforming, the loader returns the instance at `0` and a `LoadError`
at `1`; the dumper is the raw conversion. -/
theorem native_msgspec_loader_dumper_behavior_instance :
    native_msgspec_loader
      (fun _ d => if d = (0 : Nat) then ConvertResult.ok ("zero" : String)
        else .validationError "bad") [("strict", some "true")] 0 = .ok "zero"
    ∧ native_msgspec_loader
      (fun _ d => if d = (0 : Nat) then ConvertResult.ok ("zero" : String)
        else .validationError "bad") [("strict", some "true")] 1 = .loadError
    ∧ native_msgspec_dumper
      (fun _ (v : String) => Except.ok (v.length)) [("enc_hook", none)] "zero" =
      Except.ok 4 := by
  refine ⟨?_, ?_, ?_⟩
  · exact (native_msgspec_loader_dumper_behavior
      (fun _ d => if d = (0 : Nat) then ConvertResult.ok ("zero" : String)
        else .validationError "bad") [("strict", some "true")] 0
      (fun _ (v : String) => Except.ok (v.length)) [("enc_hook", none)] "zero").1
      "zero" (by rfl)
  · exact (native_msgspec_loader_dumper_behavior
      (fun _ d => if d = (0 : Nat) then ConvertResult.ok ("zero" : String)
        else .validationError "bad") [("strict", some "true")] 1
      (fun _ (v : String) => Except.ok (v.length)) [("enc_hook", none)] "zero").2.1
      "bad" (by rfl)
  · exact ((native_msgspec_loader_dumper_behavior
      (fun _ d => if d = (0 : Nat) then ConvertResult.ok ("zero" : String)
        else .validationError "bad") [("strict", some "true")] 1
      (fun _ (v : String) => Except.ok (v.length)) [("enc_hook", none)]
      "zero").2.2.2).trans (by rfl)

/-- C10: `resolve_classmethod` raises `ValueError` for every argument that
is not a bound (builtin) method, or whose bound object is not a type, or
whose bound class is a user-defined generic; for every other argument it
returns the pair of the bound class and the function itself. -/
theorem resolve_classmethod_spec (func : FuncArg) :
    (∀ b, func = .plain b →
      resolve_classmethod func =
        .error "as_constructor() with one argument expects classmethod")
    ∧ (∀ ib b, func = .method ib (.nonType b) →
      resolve_classmethod func =
        .error "as_constructor() with one argument expects classmethod")
    ∧ (∀ ib n, func = .method ib (.typeObj n true) →
      resolve_classmethod func =
        .error "as_constructor() with one argument does not support generic")
    ∧ (∀ ib n, func = .method ib (.typeObj n false) →
      resolve_classmethod func = .ok (.typeObj n false, func)) := by
  refine ⟨?_, ?_, ?_, ?_⟩
  · intro b h
    subst h
    rfl
  · intro ib b h
    subst h
    rfl
  · intro ib n h
    subst h
    rfl
  · intro ib n h
    subst h
    rfl

/-- C10 instantiated at the four argument shapes: a plain function, a
method bound to a non-type, a classmethod of a user-defined generic, and
an ordinary classmethod. -/
theorem resolve_classmethod_spec_instance :
    resolve_classmethod (.plain "f") =
      .error "as_constructor() with one argument expects classmethod"
    ∧ resolve_classmethod (.method false (.nonType "obj")) =
      .error "as_constructor() with one argument expects classmethod"
    ∧ resolve_classmethod (.method false (.typeObj "Gen" true)) =
      .error "as_constructor() with one argument does not support generic"
    ∧ resolve_classmethod (.method true (.typeObj "Book" false)) =
      .ok (.typeObj "Book" false, .method true (.typeObj "Book" false)) :=
  ⟨(resolve_classmethod_spec (.plain "f")).1 "f" rfl,
   (resolve_classmethod_spec (.method false (.nonType "obj"))).2.1 false "obj" rfl,
   (resolve_classmethod_spec (.method false (.typeObj "Gen" true))).2.2.1 false "Gen" rfl,
   (resolve_classmethod_spec (.method true (.typeObj "Book" false))).2.2.2 true "Book" rfl⟩

end DCF
